import Mathlib

/-!
Shallow embedding of the analytics module of a ticket-sales application
(`analytics/models.py` and `analytics/event_analytics.py`).

The relational store is a record of lists, one per table.  SQL joins are
embedded with their multiset semantics: a joined row exists once per pair of
matching rows, so aggregate sums multiply each purchase's contribution by the
number of matching `TicketType` rows and matching `Order` rows.  Under the
usual relational well-formedness (primary keys are unique) these
multiplicities are zero or one.  Decimal columns are embedded as `ℚ`,
timestamps as `ℤ`, integer columns as `ℕ`, nullable columns as `Option`.
-/

namespace EventAnalytics

/-- `analytics.models.Organizer`. -/
structure Organizer where
  id : Nat
  name : String
  contact_email : String
  description : String
  deriving Repr, DecidableEq

/-- `analytics.models.Event`; `capacity` is nullable (`null=True, blank=True`). -/
structure Event where
  id : Nat
  name : String
  organizer_id : Nat
  start_time : Int
  end_time : Int
  location : String
  is_published : Bool
  capacity : Option Nat
  base_ticket_price : ℚ
  deriving Repr, DecidableEq

/-- `analytics.models.TicketType`, owned by an `Event`. -/
structure TicketType where
  id : Nat
  event_id : Nat
  name : String
  price : ℚ
  quantity_available : Nat
  is_active : Bool
  deriving Repr, DecidableEq

/-- `analytics.models.Order`; `customer` is nullable (`on_delete=SET_NULL`). -/
structure Order where
  id : Nat
  customer_id : Option Nat
  order_date : Int
  total_amount : ℚ
  is_paid : Bool
  deriving Repr, DecidableEq

/-- `analytics.models.TicketPurchase`, owned by an `Order`, referencing a
`TicketType`. -/
structure TicketPurchase where
  id : Nat
  order_id : Nat
  ticket_type_id : Nat
  quantity : Nat
  purchase_price_per_unit : ℚ
  deriving Repr, DecidableEq

/-- `django.contrib.auth.models.User`, reduced to the columns the analytics
code touches. -/
structure User where
  id : Nat
  username : String
  deriving Repr, DecidableEq

/-- The relational store: one list per table. -/
structure Store where
  users : List User
  organizers : List Organizer
  events : List Event
  ticket_types : List TicketType
  orders : List Order
  purchases : List TicketPurchase
  deriving Repr

/-- Number of `Order` rows joined to a purchase by
`order__is_paid=True`: rows whose primary key matches the purchase's
`order_id` and which are paid. -/
def paidOrderMult (s : Store) (p : TicketPurchase) : Nat :=
  (s.orders.filter (fun o => o.id == p.order_id && o.is_paid)).length

/-- Number of `TicketType` rows joined to a purchase by
`ticket_type__event=event`: rows whose primary key matches the purchase's
`ticket_type_id` and which belong to the given event. -/
def eventTicketTypeMult (s : Store) (eventId : Nat) (p : TicketPurchase) : Nat :=
  (s.ticket_types.filter (fun t => t.id == p.ticket_type_id && t.event_id == eventId)).length

/-- `TicketPurchase.objects.filter(ticket_type__event=event, order__is_paid=True)
.aggregate(total=Coalesce(Sum('quantity'), 0))`: each purchase contributes its
quantity once per joined (ticket type, paid order) pair. -/
def totalTicketsSold (s : Store) (eventId : Nat) : Nat :=
  (s.purchases.map
    (fun p => p.quantity * eventTicketTypeMult s eventId p * paidOrderMult s p)).sum

/-- The revenue aggregate of `get_upcoming_events_summary`:
`Sum(Coalesce(quantity, 0) * Coalesce(purchase_price_per_unit, 0))` over the
same joined rows, coalesced to `0` when empty.  The columns are declared
`NOT NULL`, so the inner coalesces are the identity. -/
def totalRevenue (s : Store) (eventId : Nat) : ℚ :=
  (s.purchases.map
    (fun p => ((p.quantity * eventTicketTypeMult s eventId p * paidOrderMult s p : Nat) : ℚ)
      * p.purchase_price_per_unit)).sum

/-- `event.ticket_types.aggregate(total=Coalesce(Sum('quantity_available'), 0))`. -/
def totalAvailable (s : Store) (eventId : Nat) : Nat :=
  ((s.ticket_types.filter (fun t => t.event_id == eventId)).map
    (·.quantity_available)).sum

/-- `event.organizer.name if event.organizer else ''`. -/
def organizerName (s : Store) (e : Event) : String :=
  match s.organizers.find? (fun o => o.id == e.organizer_id) with
  | some o => o.name
  | none => ""

/-- One row of the result of `get_upcoming_events_summary`. -/
structure EventSummary where
  event_id : Nat
  event_name : String
  total_tickets_sold : Nat
  total_revenue : ℚ
  tickets_remaining : Int
  organizer_name : String
  deriving Repr, DecidableEq

/-- The `tickets_remaining` computation of `get_upcoming_events_summary`:
`max(capacity - total_tickets_sold, 0)` when `capacity` is set, else
`max(total_available - total_tickets_sold, 0)`, with Python's signed integer
subtraction. -/
def ticketsRemaining (s : Store) (e : Event) : Int :=
  match e.capacity with
  | some c => max ((c : Int) - (totalTicketsSold s e.id : Int)) 0
  | none => max ((totalAvailable s e.id : Int) - (totalTicketsSold s e.id : Int)) 0

/-- The dictionary appended to `result` for one event. -/
def summaryOfEvent (s : Store) (e : Event) : EventSummary :=
  { event_id := e.id
    event_name := e.name
    total_tickets_sold := totalTicketsSold s e.id
    total_revenue := totalRevenue s e.id
    tickets_remaining := ticketsRemaining s e
    organizer_name := organizerName s e }

/-- `get_upcoming_events_summary()`: one summary per event with
`is_published=True, end_time__gte=now`. -/
def get_upcoming_events_summary (s : Store) (now : Int) : List EventSummary :=
  (s.events.filter (fun e => e.is_published && decide (now ≤ e.end_time))).map
    (summaryOfEvent s)

/-- One row of the result of `get_top_selling_ticket_types`: a `TicketType`
annotated with `units_sold` and `event_name`. -/
structure RankedTicketType where
  ticket_type_id : Nat
  name : String
  event_name : String
  units_sold : Nat
  deriving Repr, DecidableEq

/-- The `units_sold` annotation: `Coalesce(Sum('purchases__quantity',
filter=Q(purchases__order__is_paid=True)), 0)` for one ticket type. -/
def unitsSold (s : Store) (ticketTypeId : Nat) : Nat :=
  ((s.purchases.filter (fun p => p.ticket_type_id == ticketTypeId)).map
    (fun p => p.quantity * paidOrderMult s p)).sum

/-- The annotated queryset before ordering: every ticket type, joined with
its owning event for `event_name=F('event__name')` (an inner join, so a
ticket type whose event row is missing produces no row). -/
def annotatedTicketTypes (s : Store) : List RankedTicketType :=
  s.ticket_types.filterMap (fun t =>
    (s.events.find? (fun e => e.id == t.event_id)).map (fun e =>
      { ticket_type_id := t.id
        name := t.name
        event_name := e.name
        units_sold := unitsSold s t.id }))

/-- `order_by('-units_sold')`: descending, ties left in an
implementation-defined (here: stable) order. -/
def rankedTicketTypes (s : Store) : List RankedTicketType :=
  (annotatedTicketTypes s).mergeSort (fun a b => decide (b.units_sold ≤ a.units_sold))

/-- `get_top_selling_ticket_types(num_types=5)`: the first `num_types` rows of
the descending ranking. -/
def get_top_selling_ticket_types (s : Store) (num_types : Nat := 5) :
    List RankedTicketType :=
  (rankedTicketTypes s).take num_types

/-- The annotated user returned by `get_customer_purchase_statistics`. -/
structure CustomerStats where
  user_id : Nat
  username : String
  total_orders_placed : Nat
  total_amount_spent : ℚ
  most_purchased_event_name : Option String
  deriving Repr, DecidableEq

/-- `Count('orders', distinct=True)`: the number of distinct primary keys of
the customer's orders, paid or not. -/
def totalOrdersPlaced (s : Store) (customerId : Nat) : Nat :=
  (((s.orders.filter (fun o => o.customer_id == some customerId)).map (·.id)).dedup).length

/-- `Coalesce(Sum('orders__total_amount', filter=Q(orders__is_paid=True)), 0)`. -/
def totalAmountSpent (s : Store) (customerId : Nat) : ℚ :=
  ((s.orders.filter (fun o => o.customer_id == some customerId && o.is_paid)).map
    (·.total_amount)).sum

/-- The joined rows underlying `event_counts`: purchases joined with their
paid order belonging to the customer, their ticket type and its event;
each row carries `ticket_type__event__name` and `quantity`. -/
def customerPurchaseRows (s : Store) (customerId : Nat) : List (String × Nat) :=
  s.purchases.flatMap (fun p =>
    (s.orders.filter
        (fun o => o.id == p.order_id && o.is_paid && o.customer_id == some customerId)).flatMap
      (fun _ =>
        (s.ticket_types.filter (fun t => t.id == p.ticket_type_id)).flatMap (fun t =>
          (s.events.filter (fun e => e.id == t.event_id)).map (fun e => (e.name, p.quantity)))))

/-- The per-group total of `event_counts`: `values('ticket_type__event__name')
.annotate(total=Sum('quantity'))` groups the joined rows by event NAME. -/
def nameTotal (s : Store) (customerId : Nat) (n : String) : Nat :=
  (((customerPurchaseRows s customerId).filter (fun r => r.1 == n)).map (·.2)).sum

/-- First element maximising `f`, `none` on the empty list: models
`order_by('-total')` followed by `[0]`, with an implementation-defined
tie-break. -/
def argmaxBy (f : String → Nat) : List String → Option String
  | [] => none
  | n :: ns =>
    match argmaxBy f ns with
    | none => some n
    | some m => if f m ≤ f n then some n else some m

/-- `event_counts[0]['ticket_type__event__name'] if event_counts else None`. -/
def mostPurchasedEventName (s : Store) (customerId : Nat) : Option String :=
  argmaxBy (nameTotal s customerId) (((customerPurchaseRows s customerId).map (·.1)).dedup)

/-- `get_customer_purchase_statistics(customer_id)`: `None` when no user with
that id exists, otherwise the user annotated with the three statistics. -/
def get_customer_purchase_statistics (s : Store) (customer_id : Nat) :
    Option CustomerStats :=
  match s.users.find? (fun u => u.id == customer_id) with
  | none => none
  | some u => some
    { user_id := u.id
      username := u.username
      total_orders_placed := totalOrdersPlaced s customer_id
      total_amount_spent := totalAmountSpent s customer_id
      most_purchased_event_name := mostPurchasedEventName s customer_id }

/-- One row of the result of `get_events_with_low_capacity_remaining`: an
`Event` annotated with `tickets_sold` and `percentage_tickets_remaining`. -/
structure LowCapacityEvent where
  event : Event
  tickets_sold : Nat
  percentage_tickets_remaining : ℚ
  deriving Repr, DecidableEq

/-- Modelled from the spec: the repository contains no database settings, so
the arithmetic semantics of the store's division operator are not in the
source; the spec fixes `percentage_tickets_remaining` to
`100 × (capacity − tickets_sold) / capacity` with real-number
(fraction-preserving) division, which this definition follows over `ℚ`. -/
def percentageRemaining (capacity ticketsSold : Nat) : ℚ :=
  100 * ((capacity : ℚ) - (ticketsSold : ℚ)) / (capacity : ℚ)

/-- `get_events_with_low_capacity_remaining(threshold_percentage=10)`:
restrict to events with non-null capacity, annotate every such event with
`tickets_sold` and `percentage_tickets_remaining`, keep those with percentage
`≤ threshold`.  The annotation divides by `capacity` for every qualifying
event, so a qualifying event with `capacity = 0` makes the query divide by
zero; that failure is modelled as `none`. -/
def get_events_with_low_capacity_remaining (s : Store) (threshold_percentage : ℚ := 10) :
    Option (List LowCapacityEvent) :=
  if (s.events.filter (fun e => e.capacity.isSome)).any (fun e => e.capacity == some 0)
  then none
  else some ((s.events.filter (fun e => e.capacity.isSome)).filterMap (fun e =>
    match e.capacity with
    | none => none
    | some c =>
      if percentageRemaining c (totalTicketsSold s e.id) ≤ threshold_percentage then
        some { event := e, tickets_sold := totalTicketsSold s e.id,
               percentage_tickets_remaining := percentageRemaining c (totalTicketsSold s e.id) }
      else none))

/-! ### Claim-side definitions

The following definitions restate, in the spec's words, the aggregates the
claims describe.  They quantify over table rows with explicit existentials
instead of join multiplicities; the bridging lemmas below show they agree
with the source embedding on stores whose primary keys are unique. -/

/-- Primary keys of the `orders` table are unique. -/
def ordersNodup (s : Store) : Prop := (s.orders.map (·.id)).Nodup

/-- Primary keys of the `ticket_types` table are unique. -/
def ticketTypesNodup (s : Store) : Prop := (s.ticket_types.map (·.id)).Nodup

instance (s : Store) : Decidable (ordersNodup s) := by unfold ordersNodup; infer_instance

instance (s : Store) : Decidable (ticketTypesNodup s) := by unfold ticketTypesNodup; infer_instance

/-- A purchase counts towards an event's aggregates: its `TicketType` belongs
to the event and its owning `Order` is paid. -/
def purchaseForEvent (s : Store) (eventId : Nat) (p : TicketPurchase) : Prop :=
  (∃ t ∈ s.ticket_types, t.id = p.ticket_type_id ∧ t.event_id = eventId) ∧
  (∃ o ∈ s.orders, o.id = p.order_id ∧ o.is_paid = true)

instance (s : Store) (eventId : Nat) (p : TicketPurchase) :
    Decidable (purchaseForEvent s eventId p) := by unfold purchaseForEvent; infer_instance

/-- Claim-side `total_tickets_sold`: sum of `quantity` over the purchases
counting towards the event. -/
def specTotalTicketsSold (s : Store) (eventId : Nat) : Nat :=
  ((s.purchases.filter (fun p => decide (purchaseForEvent s eventId p))).map
    (·.quantity)).sum

/-- Claim-side `total_revenue`: sum of `quantity × purchase_price_per_unit`
over the purchases counting towards the event. -/
def specTotalRevenue (s : Store) (eventId : Nat) : ℚ :=
  ((s.purchases.filter (fun p => decide (purchaseForEvent s eventId p))).map
    (fun p => (p.quantity : ℚ) * p.purchase_price_per_unit)).sum

/-- Claim-side `total_available`: sum of `quantity_available` over the
event's ticket types. -/
def specTotalAvailable (s : Store) (eventId : Nat) : Nat :=
  ((s.ticket_types.filter (fun t => decide (t.event_id = eventId))).map
    (·.quantity_available)).sum

/-- Claim-side `tickets_remaining`: `max(capacity − total_tickets_sold, 0)`
when capacity is set, else `max(total_available − total_tickets_sold, 0)`. -/
def specTicketsRemaining (s : Store) (e : Event) : Int :=
  match e.capacity with
  | some c => max ((c : Int) - (specTotalTicketsSold s e.id : Int)) 0
  | none => max ((specTotalAvailable s e.id : Int) - (specTotalTicketsSold s e.id : Int)) 0

/-- Claim-side `units_sold` of a ticket type: sum of `quantity` over its
purchases whose owning order is paid. -/
def specUnitsSold (s : Store) (ticketTypeId : Nat) : Nat :=
  ((s.purchases.filter (fun p =>
      decide (p.ticket_type_id = ticketTypeId ∧
        ∃ o ∈ s.orders, o.id = p.order_id ∧ o.is_paid = true))).map (·.quantity)).sum

/-- Claim-side `total_orders_placed`: distinct count of the customer's
orders, paid or not. -/
def specTotalOrdersPlaced (s : Store) (customerId : Nat) : Nat :=
  (((s.orders.filter (fun o => decide (o.customer_id = some customerId))).map
    (·.id)).dedup).length

/-- Claim-side `total_amount_spent`: sum of `total_amount` over the
customer's paid orders. -/
def specTotalAmountSpent (s : Store) (customerId : Nat) : ℚ :=
  ((s.orders.filter (fun o =>
      decide (o.customer_id = some customerId ∧ o.is_paid = true))).map
    (·.total_amount)).sum

/-- Claim-side per-event purchased quantity of one customer: sum of
`quantity` over the customer's purchases, in paid orders, of ticket types
belonging to the given event. -/
def specPerEventPaidQuantity (s : Store) (customerId eventId : Nat) : Nat :=
  ((s.purchases.filter (fun p =>
      decide ((∃ t ∈ s.ticket_types, t.id = p.ticket_type_id ∧ t.event_id = eventId) ∧
        ∃ o ∈ s.orders,
          o.id = p.order_id ∧ o.is_paid = true ∧ o.customer_id = some customerId))).map
    (·.quantity)).sum

/-! ### Concrete stores used to instantiate the theorems -/

/-- A published event with capacity 100 ending at time 100. -/
def sampleEvent : Event :=
  { id := 1, name := "Concert", organizer_id := 1, start_time := 0, end_time := 100,
    location := "Hall", is_published := true, capacity := some 100,
    base_ticket_price := 10 }

/-- A store with one event of capacity 100, two paid purchases of quantities
30 and 20 at price 10 on a paid order of amount 75, one unpaid order of
amount 20, and a second customer with no orders. -/
def sampleStore : Store :=
  { users := [{ id := 1, username := "alice" }, { id := 2, username := "bob" }]
    organizers := [{ id := 1, name := "Org", contact_email := "org@example.com",
                     description := "" }]
    events := [sampleEvent]
    ticket_types := [{ id := 1, event_id := 1, name := "GA", price := 10,
                       quantity_available := 40, is_active := true }]
    orders := [{ id := 1, customer_id := some 1, order_date := 0, total_amount := 75,
                 is_paid := true },
               { id := 2, customer_id := some 1, order_date := 0, total_amount := 20,
                 is_paid := false }]
    purchases := [{ id := 1, order_id := 1, ticket_type_id := 1, quantity := 30,
                    purchase_price_per_unit := 10 },
                  { id := 2, order_id := 1, ticket_type_id := 1, quantity := 20,
                    purchase_price_per_unit := 10 }] }

/-- The row `get_events_with_low_capacity_remaining` produces for
`sampleEvent`: 50 of 100 tickets sold, 50% remaining. -/
def sampleLow : LowCapacityEvent :=
  { event := sampleEvent, tickets_sold := 50, percentage_tickets_remaining := 50 }

/-- A store whose only event has `capacity = 0`, which the schema permits. -/
def zeroCapacityStore : Store :=
  { users := [], organizers := [],
    events := [{ id := 1, name := "Empty", organizer_id := 1, start_time := 0,
                 end_time := 100, location := "L", is_published := true,
                 capacity := some 0, base_ticket_price := 0 }],
    ticket_types := [], orders := [], purchases := [] }

/-- A store where two distinct events share the name `X` (quantities 3 and 3)
while a third event named `Y` has the largest per-event quantity (5), all
bought by customer 1 in one paid order. -/
def groupedNameStore : Store :=
  { users := [{ id := 1, username := "carol" }]
    organizers := [{ id := 1, name := "Org", contact_email := "o@example.com",
                     description := "" }]
    events := [{ id := 1, name := "X", organizer_id := 1, start_time := 0, end_time := 10,
                 location := "L", is_published := true, capacity := none,
                 base_ticket_price := 0 },
               { id := 2, name := "X", organizer_id := 1, start_time := 0, end_time := 10,
                 location := "L", is_published := true, capacity := none,
                 base_ticket_price := 0 },
               { id := 3, name := "Y", organizer_id := 1, start_time := 0, end_time := 10,
                 location := "L", is_published := true, capacity := none,
                 base_ticket_price := 0 }]
    ticket_types := [{ id := 1, event_id := 1, name := "t", price := 1,
                       quantity_available := 10, is_active := true },
                     { id := 2, event_id := 2, name := "t", price := 1,
                       quantity_available := 10, is_active := true },
                     { id := 3, event_id := 3, name := "t", price := 1,
                       quantity_available := 10, is_active := true }]
    orders := [{ id := 1, customer_id := some 1, order_date := 0, total_amount := 11,
                 is_paid := true }]
    purchases := [{ id := 1, order_id := 1, ticket_type_id := 1, quantity := 3,
                    purchase_price_per_unit := 1 },
                  { id := 2, order_id := 1, ticket_type_id := 2, quantity := 3,
                    purchase_price_per_unit := 1 },
                  { id := 3, order_id := 1, ticket_type_id := 3, quantity := 5,
                    purchase_price_per_unit := 1 }] }

/-! ### Bridging lemmas -/

theorem sum_map_filter_eq {α M : Type} [AddCommMonoid M] (l : List α) (q : α → Bool)
    (g : α → M) :
    ((l.filter q).map g).sum = (l.map (fun a => if q a then g a else 0)).sum := by
  induction l with
  | nil => rfl
  | cons a l ih =>
    by_cases h : q a <;> simp [List.filter_cons, h, ih]

theorem length_le_one_of_nodup_const {α : Type} {l : List α} (h : l.Nodup) (c : α)
    (hc : ∀ x ∈ l, x = c) : l.length ≤ 1 := by
  match l with
  | [] => simp
  | [a] => simp
  | a :: b :: t =>
    exfalso
    have ha := hc a (by simp)
    have hb := hc b (by simp)
    subst ha
    rw [List.nodup_cons] at h
    exact h.1 (by simp [hb])

theorem filter_beq_length_eq_ite {α : Type} (l : List α) (f : α → Nat) (q : α → Bool)
    (key : Nat) (hkey : ∀ x, q x = true → f x = key) (h : (l.map f).Nodup) :
    (l.filter q).length = if ∃ x ∈ l, q x = true then 1 else 0 := by
  split
  · next hex =>
    obtain ⟨x, hx, hqx⟩ := hex
    have hmem : x ∈ l.filter q := List.mem_filter.mpr ⟨hx, hqx⟩
    have hpos : 0 < (l.filter q).length :=
      List.length_pos.mpr (fun hnil => by simp [hnil] at hmem)
    have hsub : ((l.filter q).map f).Nodup :=
      h.sublist (List.Sublist.map f (List.filter_sublist l))
    have hone : ((l.filter q).map f).length ≤ 1 := by
      refine length_le_one_of_nodup_const hsub key ?_
      intro y hy
      obtain ⟨z, hz, rfl⟩ := List.mem_map.mp hy
      exact hkey z (List.mem_filter.mp hz).2
    rw [List.length_map] at hone
    omega
  · next hex =>
    rw [List.length_eq_zero]
    refine List.filter_eq_nil_iff.mpr ?_
    intro x hx hqx
    exact hex ⟨x, hx, hqx⟩

theorem paidOrderMult_eq (s : Store) (p : TicketPurchase) (hO : ordersNodup s) :
    paidOrderMult s p =
      if ∃ o ∈ s.orders, o.id = p.order_id ∧ o.is_paid = true then 1 else 0 := by
  unfold paidOrderMult
  rw [filter_beq_length_eq_ite s.orders (·.id) _ p.order_id
    (fun o ho => by
      have h := (Bool.and_eq_true _ _).mp ho
      have h1 := h.1
      simpa using h1) hO]
  congr 1
  simp only [eq_iff_iff]
  constructor
  · rintro ⟨o, ho, hq⟩
    have h := (Bool.and_eq_true _ _).mp hq
    have h1 := h.1
    exact ⟨o, ho, by simpa using h1, h.2⟩
  · rintro ⟨o, ho, hid, hp⟩
    exact ⟨o, ho, by simp [hid, hp]⟩

theorem eventTicketTypeMult_eq (s : Store) (eventId : Nat) (p : TicketPurchase)
    (hT : ticketTypesNodup s) :
    eventTicketTypeMult s eventId p =
      if ∃ t ∈ s.ticket_types, t.id = p.ticket_type_id ∧ t.event_id = eventId then 1
      else 0 := by
  unfold eventTicketTypeMult
  rw [filter_beq_length_eq_ite s.ticket_types (·.id) _ p.ticket_type_id
    (fun t ht => by
      have h := (Bool.and_eq_true _ _).mp ht
      have h1 := h.1
      simpa using h1) hT]
  congr 1
  simp only [eq_iff_iff]
  constructor
  · rintro ⟨t, ht, hq⟩
    have h := (Bool.and_eq_true _ _).mp hq
    have h1 := h.1
    have h2 := h.2
    exact ⟨t, ht, by simpa using h1, by simpa using h2⟩
  · rintro ⟨t, ht, hid, hev⟩
    exact ⟨t, ht, by simp [hid, hev]⟩

theorem totalTicketsSold_eq_spec (s : Store) (eventId : Nat) (hT : ticketTypesNodup s)
    (hO : ordersNodup s) : totalTicketsSold s eventId = specTotalTicketsSold s eventId := by
  unfold totalTicketsSold specTotalTicketsSold
  rw [sum_map_filter_eq]
  congr 1
  refine List.map_congr_left ?_
  intro p hp
  rw [paidOrderMult_eq s p hO, eventTicketTypeMult_eq s eventId p hT]
  by_cases h1 : ∃ t ∈ s.ticket_types, t.id = p.ticket_type_id ∧ t.event_id = eventId <;>
    by_cases h2 : ∃ o ∈ s.orders, o.id = p.order_id ∧ o.is_paid = true <;>
      simp [purchaseForEvent, h1, h2]

theorem totalRevenue_eq_spec (s : Store) (eventId : Nat) (hT : ticketTypesNodup s)
    (hO : ordersNodup s) : totalRevenue s eventId = specTotalRevenue s eventId := by
  unfold totalRevenue specTotalRevenue
  rw [sum_map_filter_eq]
  congr 1
  refine List.map_congr_left ?_
  intro p hp
  rw [paidOrderMult_eq s p hO, eventTicketTypeMult_eq s eventId p hT]
  by_cases h1 : ∃ t ∈ s.ticket_types, t.id = p.ticket_type_id ∧ t.event_id = eventId <;>
    by_cases h2 : ∃ o ∈ s.orders, o.id = p.order_id ∧ o.is_paid = true <;>
      simp [purchaseForEvent, h1, h2]

theorem totalAvailable_eq_spec (s : Store) (eventId : Nat) :
    totalAvailable s eventId = specTotalAvailable s eventId := by
  unfold totalAvailable specTotalAvailable
  have h : s.ticket_types.filter (fun t => t.event_id == eventId)
      = s.ticket_types.filter (fun t => decide (t.event_id = eventId)) :=
    List.filter_congr (fun t _ => by by_cases h : t.event_id = eventId <;> simp [h])
  rw [h]

theorem unitsSold_eq_spec (s : Store) (ticketTypeId : Nat) (hO : ordersNodup s) :
    unitsSold s ticketTypeId = specUnitsSold s ticketTypeId := by
  unfold unitsSold specUnitsSold
  rw [sum_map_filter_eq, sum_map_filter_eq]
  congr 1
  refine List.map_congr_left ?_
  intro p hp
  rw [paidOrderMult_eq s p hO]
  by_cases h1 : p.ticket_type_id = ticketTypeId <;>
    by_cases h2 : ∃ o ∈ s.orders, o.id = p.order_id ∧ o.is_paid = true <;>
      simp [h1, h2]

theorem totalOrdersPlaced_eq_spec (s : Store) (customerId : Nat) :
    totalOrdersPlaced s customerId = specTotalOrdersPlaced s customerId := by
  unfold totalOrdersPlaced specTotalOrdersPlaced
  have h : s.orders.filter (fun o => o.customer_id == some customerId)
      = s.orders.filter (fun o => decide (o.customer_id = some customerId)) :=
    List.filter_congr (fun o _ => by
      by_cases h : o.customer_id = some customerId <;> simp [h])
  rw [h]

theorem totalAmountSpent_eq_spec (s : Store) (customerId : Nat) :
    totalAmountSpent s customerId = specTotalAmountSpent s customerId := by
  unfold totalAmountSpent specTotalAmountSpent
  have h : s.orders.filter (fun o => o.customer_id == some customerId && o.is_paid)
      = s.orders.filter (fun o => decide (o.customer_id = some customerId ∧ o.is_paid = true)) :=
    List.filter_congr (fun o _ => by
      by_cases h1 : o.customer_id = some customerId <;>
        by_cases h2 : o.is_paid <;> simp [h1, h2])
  rw [h]

/-! ### Ranking helpers -/

theorem rankedTicketTypes_pairwise (s : Store) :
    List.Pairwise (fun a b : RankedTicketType => b.units_sold ≤ a.units_sold)
      (rankedTicketTypes s) := by
  have h : List.Pairwise
      (fun a b : RankedTicketType =>
        (fun a b : RankedTicketType => decide (b.units_sold ≤ a.units_sold)) a b = true)
      ((annotatedTicketTypes s).mergeSort
        (fun a b : RankedTicketType => decide (b.units_sold ≤ a.units_sold))) :=
    List.sorted_mergeSort
      (fun a b c h1 h2 => by
        simp only [decide_eq_true_eq] at h1 h2 ⊢
        exact le_trans h2 h1)
      (fun a b => by
        rcases Nat.le_total b.units_sold a.units_sold with h | h <;> simp [h])
      (annotatedTicketTypes s)
  refine h.imp ?_
  intro a b hab
  simpa using hab

theorem mem_rankedTicketTypes_iff (s : Store) (r : RankedTicketType) :
    r ∈ rankedTicketTypes s ↔ r ∈ annotatedTicketTypes s :=
  (List.mergeSort_perm (annotatedTicketTypes s) _).mem_iff

theorem units_sold_of_mem_annotated (s : Store) (r : RankedTicketType)
    (hr : r ∈ annotatedTicketTypes s) : r.units_sold = unitsSold s r.ticket_type_id := by
  obtain ⟨t, ht, hf⟩ := List.mem_filterMap.mp hr
  obtain ⟨e, hfind, heq⟩ := Option.map_eq_some'.mp hf
  cases heq
  rfl

/-! ### Customer-statistics helpers -/

theorem argmaxBy_eq_none_iff (f : String → Nat) (l : List String) :
    argmaxBy f l = none ↔ l = [] := by
  cases l with
  | nil => simp [argmaxBy]
  | cons a l =>
    simp only [argmaxBy]
    cases argmaxBy f l with
    | none => simp
    | some m => by_cases h : f m ≤ f a <;> simp [h]

theorem argmaxBy_mem (f : String → Nat) (l : List String) (n : String)
    (h : argmaxBy f l = some n) : n ∈ l := by
  induction l with
  | nil => simp [argmaxBy] at h
  | cons a l ih =>
    rw [argmaxBy] at h
    cases hrec : argmaxBy f l with
    | none => rw [hrec] at h; simp at h; simp [h]
    | some m =>
      rw [hrec] at h
      by_cases hle : f m ≤ f a
      · simp [hle] at h
        simp [h]
      · simp [hle] at h
        subst h
        exact List.mem_cons_of_mem a (ih hrec)

theorem argmaxBy_is_max (f : String → Nat) :
    ∀ (l : List String) (n : String), argmaxBy f l = some n → ∀ m ∈ l, f m ≤ f n := by
  intro l
  induction l with
  | nil => intro n h; simp [argmaxBy] at h
  | cons a l ih =>
    intro n h
    rw [argmaxBy] at h
    cases hrec : argmaxBy f l with
    | none =>
      rw [hrec] at h
      simp at h
      subst h
      have hl : l = [] := (argmaxBy_eq_none_iff f l).mp hrec
      subst hl
      simp
    | some m =>
      rw [hrec] at h
      by_cases hle : f m ≤ f a
      · simp [hle] at h
        subst h
        intro x hx
        rcases List.mem_cons.mp hx with rfl | hx
        · exact le_refl _
        · exact le_trans (ih m hrec x hx) hle
      · simp [hle] at h
        subst h
        intro x hx
        rcases List.mem_cons.mp hx with rfl | hx
        · exact le_of_lt (lt_of_not_le hle)
        · exact ih m hrec x hx

theorem mem_customerPurchaseRows (s : Store) (customerId : Nat) (r : String × Nat) :
    r ∈ customerPurchaseRows s customerId ↔
      ∃ p ∈ s.purchases,
        (∃ o ∈ s.orders,
          o.id = p.order_id ∧ o.is_paid = true ∧ o.customer_id = some customerId) ∧
        ∃ t ∈ s.ticket_types, t.id = p.ticket_type_id ∧
          ∃ e ∈ s.events, e.id = t.event_id ∧ r = (e.name, p.quantity) := by
  unfold customerPurchaseRows
  simp only [List.mem_flatMap, List.mem_filter, List.mem_map, Bool.and_eq_true,
    beq_iff_eq]
  constructor
  · rintro ⟨p, hp, o, ⟨ho, ⟨hoid, hpaid⟩, hcust⟩, t, ⟨ht, htid⟩, e, ⟨he, heid⟩, hr⟩
    exact ⟨p, hp, ⟨o, ho, hoid, hpaid, hcust⟩, t, ht, htid, e, he, heid, hr.symm⟩
  · rintro ⟨p, hp, ⟨o, ho, hoid, hpaid, hcust⟩, t, ht, htid, e, he, heid, hr⟩
    exact ⟨p, hp, o, ⟨ho, ⟨hoid, hpaid⟩, hcust⟩, t, ⟨ht, htid⟩, e, ⟨he, heid⟩, hr.symm⟩

theorem nameTotal_eq_zero_of_not_mem (s : Store) (customerId : Nat) (n : String)
    (h : n ∉ (customerPurchaseRows s customerId).map (·.1)) :
    nameTotal s customerId n = 0 := by
  unfold nameTotal
  have hnil : (customerPurchaseRows s customerId).filter (fun r => r.1 == n) = [] := by
    refine List.filter_eq_nil_iff.mpr ?_
    intro r hr hq
    exact h (List.mem_map.mpr ⟨r, hr, by simpa using hq⟩)
  rw [hnil]
  rfl

theorem customerPurchaseRows_eq_nil_of_no_orders (s : Store) (customerId : Nat)
    (h : ∀ o ∈ s.orders, o.customer_id ≠ some customerId) :
    customerPurchaseRows s customerId = [] := by
  rw [List.eq_nil_iff_forall_not_mem]
  intro r hr
  obtain ⟨p, hp, ⟨o, ho, _, _, hcust⟩, _⟩ := (mem_customerPurchaseRows s customerId r).mp hr
  exact h o ho hcust

/-! ### Claim theorems -/

/-- C1: for every event returned by `get_upcoming_events_summary`,
`tickets_remaining` equals `max(capacity − total_tickets_sold, 0)` when the
event's capacity is non-null and `max(total_available − total_tickets_sold, 0)`
when it is null (`total_available` being the sum of `quantity_available` over
the event's ticket types, `0` when it has none); in particular
`tickets_remaining ≥ 0` always, even on oversold data. -/
theorem upcoming_tickets_remaining_correct (s : Store) (now : Int) (e : Event)
    (he : e ∈ s.events) (hpub : e.is_published = true) (hend : now ≤ e.end_time)
    (hT : ticketTypesNodup s) (hO : ordersNodup s) :
    summaryOfEvent s e ∈ get_upcoming_events_summary s now ∧
    (summaryOfEvent s e).tickets_remaining = specTicketsRemaining s e ∧
    0 ≤ (summaryOfEvent s e).tickets_remaining := by
  refine ⟨?_, ?_, ?_⟩
  · exact List.mem_map.mpr ⟨e, List.mem_filter.mpr ⟨he, by simp [hpub, hend]⟩, rfl⟩
  · show ticketsRemaining s e = specTicketsRemaining s e
    unfold ticketsRemaining specTicketsRemaining
    rw [totalTicketsSold_eq_spec s e.id hT hO, totalAvailable_eq_spec]
  · show 0 ≤ ticketsRemaining s e
    unfold ticketsRemaining
    cases e.capacity <;> simp

/-- Instantiation of `upcoming_tickets_remaining_correct` at `sampleStore`. -/
theorem upcoming_tickets_remaining_correct_witness :
    summaryOfEvent sampleStore sampleEvent ∈ get_upcoming_events_summary sampleStore 0 ∧
    (summaryOfEvent sampleStore sampleEvent).tickets_remaining =
      specTicketsRemaining sampleStore sampleEvent ∧
    0 ≤ (summaryOfEvent sampleStore sampleEvent).tickets_remaining :=
  upcoming_tickets_remaining_correct sampleStore 0 sampleEvent (by decide) (by decide)
    (by decide) (by decide) (by decide)

/-- C9: `get_upcoming_events_summary` produces one summary per event with
`published = true` and `end_time ≥ now`, and each summary's
`total_tickets_sold` is the sum of `quantity` over purchases whose ticket
type belongs to the event and whose order is paid, `0` when no such rows
exist. -/
theorem upcoming_selection_and_sold_correct (s : Store) (now : Int)
    (hT : ticketTypesNodup s) (hO : ordersNodup s) :
    get_upcoming_events_summary s now =
      (s.events.filter (fun e => decide (e.is_published = true ∧ now ≤ e.end_time))).map
        (summaryOfEvent s) ∧
    (∀ e ∈ s.events, (summaryOfEvent s e).total_tickets_sold = specTotalTicketsSold s e.id) ∧
    (∀ e ∈ s.events, (∀ p ∈ s.purchases, ¬ purchaseForEvent s e.id p) →
      (summaryOfEvent s e).total_tickets_sold = 0) := by
  refine ⟨?_, ?_, ?_⟩
  · unfold get_upcoming_events_summary
    have h : s.events.filter (fun e => e.is_published && decide (now ≤ e.end_time))
        = s.events.filter (fun e => decide (e.is_published = true ∧ now ≤ e.end_time)) :=
      List.filter_congr (fun e _ => by
        by_cases h1 : e.is_published = true <;> by_cases h2 : now ≤ e.end_time <;>
          simp [h1, h2])
    rw [h]
  · intro e _
    exact totalTicketsSold_eq_spec s e.id hT hO
  · intro e he hnone
    show totalTicketsSold s e.id = 0
    rw [totalTicketsSold_eq_spec s e.id hT hO]
    unfold specTotalTicketsSold
    have h : s.purchases.filter (fun p => decide (purchaseForEvent s e.id p)) = [] :=
      List.filter_eq_nil_iff.mpr (fun p hp => by simpa using hnone p hp)
    rw [h]
    rfl

/-- Instantiation of `upcoming_selection_and_sold_correct` at `sampleStore`. -/
theorem upcoming_selection_and_sold_correct_witness :
    get_upcoming_events_summary sampleStore 0 =
      (sampleStore.events.filter
        (fun e => decide (e.is_published = true ∧ (0 : Int) ≤ e.end_time))).map
        (summaryOfEvent sampleStore) ∧
    (∀ e ∈ sampleStore.events,
      (summaryOfEvent sampleStore e).total_tickets_sold =
        specTotalTicketsSold sampleStore e.id) ∧
    (∀ e ∈ sampleStore.events,
      (∀ p ∈ sampleStore.purchases, ¬ purchaseForEvent sampleStore e.id p) →
      (summaryOfEvent sampleStore e).total_tickets_sold = 0) :=
  upcoming_selection_and_sold_correct sampleStore 0 (by decide) (by decide)

/-- C4: in every summary, `total_revenue` is the sum of
`quantity × purchase_price_per_unit` over exactly the purchases whose ticket
type belongs to the event and whose order is paid, and is `0` when no such
rows exist.  The `quantity` and `purchase_price_per_unit` columns are
declared `NOT NULL`, so the null-coalescing of the source is the identity. -/
theorem upcoming_total_revenue_correct (s : Store) (now : Int) (e : Event)
    (he : e ∈ s.events) (hpub : e.is_published = true) (hend : now ≤ e.end_time)
    (hT : ticketTypesNodup s) (hO : ordersNodup s) :
    summaryOfEvent s e ∈ get_upcoming_events_summary s now ∧
    (summaryOfEvent s e).total_revenue = specTotalRevenue s e.id ∧
    ((∀ p ∈ s.purchases, ¬ purchaseForEvent s e.id p) →
      (summaryOfEvent s e).total_revenue = 0) := by
  refine ⟨?_, ?_, ?_⟩
  · exact List.mem_map.mpr ⟨e, List.mem_filter.mpr ⟨he, by simp [hpub, hend]⟩, rfl⟩
  · exact totalRevenue_eq_spec s e.id hT hO
  · intro hnone
    show totalRevenue s e.id = 0
    rw [totalRevenue_eq_spec s e.id hT hO]
    unfold specTotalRevenue
    have h : s.purchases.filter (fun p => decide (purchaseForEvent s e.id p)) = [] :=
      List.filter_eq_nil_iff.mpr (fun p hp => by simpa using hnone p hp)
    rw [h]
    rfl

/-- Instantiation of `upcoming_total_revenue_correct` at `sampleStore`. -/
theorem upcoming_total_revenue_correct_witness :
    summaryOfEvent sampleStore sampleEvent ∈ get_upcoming_events_summary sampleStore 0 ∧
    (summaryOfEvent sampleStore sampleEvent).total_revenue =
      specTotalRevenue sampleStore sampleEvent.id ∧
    ((∀ p ∈ sampleStore.purchases, ¬ purchaseForEvent sampleStore sampleEvent.id p) →
      (summaryOfEvent sampleStore sampleEvent).total_revenue = 0) :=
  upcoming_total_revenue_correct sampleStore 0 sampleEvent (by decide) (by decide)
    (by decide) (by decide) (by decide)

/-- C5: for an existing customer, `total_orders_placed` is the distinct count
of all the customer's orders regardless of paid status, and
`total_amount_spent` is the sum of `total_amount` over only the customer's
paid orders, `0` when there are none. -/
theorem customer_totals_correct (s : Store) (cid : Nat)
    (hu : ∃ u ∈ s.users, u.id = cid) :
    (get_customer_purchase_statistics s cid).map (·.total_orders_placed) =
      some (specTotalOrdersPlaced s cid) ∧
    (get_customer_purchase_statistics s cid).map (·.total_amount_spent) =
      some (specTotalAmountSpent s cid) := by
  obtain ⟨u, hu, hid⟩ := hu
  have hsome : (s.users.find? (fun u => u.id == cid)).isSome :=
    List.find?_isSome.mpr ⟨u, hu, by simp [hid]⟩
  obtain ⟨u', hfind⟩ := Option.isSome_iff_exists.mp hsome
  unfold get_customer_purchase_statistics
  rw [hfind]
  exact ⟨congrArg some (totalOrdersPlaced_eq_spec s cid),
    congrArg some (totalAmountSpent_eq_spec s cid)⟩

/-- Instantiation of `customer_totals_correct` at `sampleStore`, customer 1:
one paid order of 75 and one unpaid order of 20 give `total_orders_placed = 2`
and `total_amount_spent = 75`. -/
theorem customer_totals_correct_witness :
    ((get_customer_purchase_statistics sampleStore 1).map (·.total_orders_placed) =
      some (specTotalOrdersPlaced sampleStore 1) ∧
    (get_customer_purchase_statistics sampleStore 1).map (·.total_amount_spent) =
      some (specTotalAmountSpent sampleStore 1)) ∧
    specTotalOrdersPlaced sampleStore 1 = 2 ∧
    specTotalAmountSpent sampleStore 1 = 75 :=
  ⟨customer_totals_correct sampleStore 1 (by decide), by decide,
    by simp [specTotalAmountSpent, sampleStore, List.filter]⟩

/-- C7: `get_customer_purchase_statistics` returns an absent result (not an
error) for a nonexistent customer id, and tolerates a customer with zero
orders: all statistics are zero/absent. -/
theorem customer_statistics_absent_and_zero_orders (s : Store) (cid : Nat) :
    ((∀ u ∈ s.users, u.id ≠ cid) → get_customer_purchase_statistics s cid = none) ∧
    ((∃ u ∈ s.users, u.id = cid) → (∀ o ∈ s.orders, o.customer_id ≠ some cid) →
      (get_customer_purchase_statistics s cid).map (·.total_orders_placed) = some 0 ∧
      (get_customer_purchase_statistics s cid).map (·.total_amount_spent) = some 0 ∧
      (get_customer_purchase_statistics s cid).map (·.most_purchased_event_name) =
        some none) := by
  constructor
  · intro h
    unfold get_customer_purchase_statistics
    rw [List.find?_eq_none.mpr (fun u hu => by simpa using h u hu)]
  · rintro ⟨u, hu, hid⟩ hno
    have hsome : (s.users.find? (fun u => u.id == cid)).isSome :=
      List.find?_isSome.mpr ⟨u, hu, by simp [hid]⟩
    obtain ⟨u', hfind⟩ := Option.isSome_iff_exists.mp hsome
    have hfilter : s.orders.filter (fun o => o.customer_id == some cid) = [] :=
      List.filter_eq_nil_iff.mpr (fun o ho hq => hno o ho (by simpa using hq))
    have hrows : customerPurchaseRows s cid = [] :=
      customerPurchaseRows_eq_nil_of_no_orders s cid hno
    unfold get_customer_purchase_statistics
    rw [hfind]
    refine ⟨?_, ?_, ?_⟩
    · show some (totalOrdersPlaced s cid) = some 0
      unfold totalOrdersPlaced
      rw [hfilter]
      rfl
    · show some (totalAmountSpent s cid) = some 0
      unfold totalAmountSpent
      have h2 : s.orders.filter (fun o => o.customer_id == some cid && o.is_paid) = [] :=
        List.filter_eq_nil_iff.mpr (fun o ho hq => by
          have := (Bool.and_eq_true _ _).mp hq
          exact hno o ho (by simpa using this.1))
      rw [h2]
      rfl
    · show some (mostPurchasedEventName s cid) = some none
      unfold mostPurchasedEventName
      rw [hrows]
      rfl

/-- Instantiation of `customer_statistics_absent_and_zero_orders` at
`sampleStore`: customer id 99 does not exist; customer 2 exists and has no
orders. -/
theorem customer_statistics_absent_and_zero_orders_witness :
    get_customer_purchase_statistics sampleStore 99 = none ∧
    ((get_customer_purchase_statistics sampleStore 2).map (·.total_orders_placed) =
        some 0 ∧
      (get_customer_purchase_statistics sampleStore 2).map (·.total_amount_spent) =
        some 0 ∧
      (get_customer_purchase_statistics sampleStore 2).map (·.most_purchased_event_name) =
        some none) :=
  ⟨(customer_statistics_absent_and_zero_orders sampleStore 99).1 (by decide),
    (customer_statistics_absent_and_zero_orders sampleStore 2).2 (by decide) (by decide)⟩

/-- C3: `get_top_selling_ticket_types` returns at most `limit` rows; each
returned row's `units_sold` is the sum of `quantity` over the ticket type's
purchases in paid orders; the returned sequence, like the full ranking, is
non-increasing in `units_sold`; and every ticket type (zero sales included)
appears in the full ranking rather than being filtered out. -/
theorem top_selling_ranking_correct (s : Store) (limit : Nat) (hO : ordersNodup s) :
    (get_top_selling_ticket_types s limit).length ≤ limit ∧
    List.Pairwise (fun a b : RankedTicketType => b.units_sold ≤ a.units_sold)
      (get_top_selling_ticket_types s limit) ∧
    (∀ r ∈ get_top_selling_ticket_types s limit,
      r.units_sold = specUnitsSold s r.ticket_type_id) ∧
    List.Pairwise (fun a b : RankedTicketType => b.units_sold ≤ a.units_sold)
      (rankedTicketTypes s) ∧
    (∀ t ∈ s.ticket_types, (∃ e ∈ s.events, e.id = t.event_id) →
      ∃ r ∈ rankedTicketTypes s, r.ticket_type_id = t.id ∧
        r.units_sold = specUnitsSold s t.id) := by
  refine ⟨List.length_take_le _ _, ?_, ?_, rankedTicketTypes_pairwise s, ?_⟩
  · exact (rankedTicketTypes_pairwise s).sublist (List.take_sublist _ _)
  · intro r hr
    have hmem : r ∈ rankedTicketTypes s := (List.take_sublist _ _).subset hr
    have hann : r ∈ annotatedTicketTypes s := (mem_rankedTicketTypes_iff s r).mp hmem
    rw [units_sold_of_mem_annotated s r hann]
    exact unitsSold_eq_spec s r.ticket_type_id hO
  · intro t ht ⟨e0, he0, heid⟩
    have hsome : (s.events.find? (fun e => e.id == t.event_id)).isSome :=
      List.find?_isSome.mpr ⟨e0, he0, by simp [heid]⟩
    obtain ⟨e', hfind⟩ := Option.isSome_iff_exists.mp hsome
    refine ⟨{ ticket_type_id := t.id, name := t.name, event_name := e'.name,
              units_sold := unitsSold s t.id }, ?_, rfl, unitsSold_eq_spec s t.id hO⟩
    refine (mem_rankedTicketTypes_iff s _).mpr ?_
    exact List.mem_filterMap.mpr ⟨t, ht, by rw [hfind]; rfl⟩

/-- Instantiation of `top_selling_ranking_correct` at `sampleStore` with
`limit = 5`. -/
theorem top_selling_ranking_correct_witness :
    (get_top_selling_ticket_types sampleStore 5).length ≤ 5 ∧
    List.Pairwise (fun a b : RankedTicketType => b.units_sold ≤ a.units_sold)
      (get_top_selling_ticket_types sampleStore 5) ∧
    (∀ r ∈ get_top_selling_ticket_types sampleStore 5,
      r.units_sold = specUnitsSold sampleStore r.ticket_type_id) ∧
    List.Pairwise (fun a b : RankedTicketType => b.units_sold ≤ a.units_sold)
      (rankedTicketTypes sampleStore) ∧
    (∀ t ∈ sampleStore.ticket_types, (∃ e ∈ sampleStore.events, e.id = t.event_id) →
      ∃ r ∈ rankedTicketTypes sampleStore, r.ticket_type_id = t.id ∧
        r.units_sold = specUnitsSold sampleStore t.id) :=
  top_selling_ranking_correct sampleStore 5 (by decide)

/-- C2: every row returned by `get_events_with_low_capacity_remaining` carries
`tickets_sold` equal to the sum of `quantity` over paid purchases of the
event's ticket types, and `percentage_tickets_remaining` equal to the exact
rational `100 × (capacity − tickets_sold) / capacity` — unclamped, hence
negative whenever sold tickets exceed capacity. -/
theorem low_capacity_percentage_exact (s : Store) (threshold : ℚ)
    (l : List LowCapacityEvent)
    (h : get_events_with_low_capacity_remaining s threshold = some l)
    (r : LowCapacityEvent) (hr : r ∈ l) (c : Nat) (hc : r.event.capacity = some c)
    (hT : ticketTypesNodup s) (hO : ordersNodup s) :
    r.tickets_sold = specTotalTicketsSold s r.event.id ∧
    r.percentage_tickets_remaining =
      100 * ((c : ℚ) - (specTotalTicketsSold s r.event.id : ℚ)) / (c : ℚ) ∧
    ((c : ℚ) < (specTotalTicketsSold s r.event.id : ℚ) →
      r.percentage_tickets_remaining < 0) := by
  unfold get_events_with_low_capacity_remaining at h
  by_cases hany : (s.events.filter (fun e => e.capacity.isSome)).any
      (fun e => e.capacity == some 0) = true
  · rw [if_pos hany] at h
    exact absurd h (by simp)
  · rw [if_neg hany] at h
    have hl := Option.some.inj h
    rw [← hl] at hr
    obtain ⟨e, hef, hfe⟩ := List.mem_filterMap.mp hr
    obtain ⟨heev, hesome⟩ := List.mem_filter.mp hef
    cases hcap : e.capacity with
    | none => rw [hcap] at hesome; simp at hesome
    | some c' =>
      rw [hcap] at hfe
      have hfe2 : (if percentageRemaining c' (totalTicketsSold s e.id) ≤ threshold then
          some { event := e, tickets_sold := totalTicketsSold s e.id,
                 percentage_tickets_remaining :=
                   percentageRemaining c' (totalTicketsSold s e.id) }
        else none) = some r := hfe
      by_cases hif : percentageRemaining c' (totalTicketsSold s e.id) ≤ threshold
      · rw [if_pos hif] at hfe2
        have hre := Option.some.inj hfe2
        have hev : r.event = e := by rw [← hre]
        have hsold : r.tickets_sold = totalTicketsSold s e.id := by rw [← hre]
        have hpct : r.percentage_tickets_remaining =
            percentageRemaining c' (totalTicketsSold s e.id) := by rw [← hre]
        have hcc : c' = c := by
          have := hc
          rw [hev, hcap] at this
          exact Option.some.inj this
        subst hcc
        have hcpos : 0 < c' := by
          have hne : ¬(e.capacity == some 0) = true :=
            (List.any_eq_false.mp (Bool.of_not_eq_true hany)) e hef
          rw [hcap] at hne
          simp at hne
          omega
        have hbridge : totalTicketsSold s e.id = specTotalTicketsSold s e.id :=
          totalTicketsSold_eq_spec s e.id hT hO
        refine ⟨by rw [hsold, hev, hbridge], ?_, ?_⟩
        · rw [hpct, hev, percentageRemaining, hbridge]
        · intro hlt
          rw [hpct, percentageRemaining, hbridge]
          rw [hev] at hlt
          have hqpos : (0 : ℚ) < (c' : ℚ) := by exact_mod_cast hcpos
          exact div_neg_of_neg_of_pos
            (mul_neg_of_pos_of_neg (by norm_num) (sub_neg.mpr hlt)) hqpos
      · rw [if_neg hif] at hfe2
        simp at hfe2

/-- Instantiation of `low_capacity_percentage_exact` at `sampleStore` with
threshold 60: capacity 100 and paid quantities 30 and 20 give
`percentage_tickets_remaining = 50`. -/
theorem low_capacity_percentage_exact_witness :
    (sampleLow.tickets_sold = specTotalTicketsSold sampleStore sampleLow.event.id ∧
    sampleLow.percentage_tickets_remaining =
      100 * ((100 : ℚ) - (specTotalTicketsSold sampleStore sampleLow.event.id : ℚ)) /
        (100 : ℚ) ∧
    ((100 : ℚ) < (specTotalTicketsSold sampleStore sampleLow.event.id : ℚ) →
      sampleLow.percentage_tickets_remaining < 0)) ∧
    sampleLow.percentage_tickets_remaining = 50 :=
  ⟨low_capacity_percentage_exact sampleStore 60 [sampleLow]
    (by simp [get_events_with_low_capacity_remaining, sampleStore, sampleEvent, sampleLow,
      percentageRemaining, totalTicketsSold, eventTicketTypeMult, paidOrderMult,
      List.filter, List.filterMap, List.any]
        norm_num)
    sampleLow (by simp) 100 rfl (by decide) (by decide), by norm_num [sampleLow]⟩

/-- C8: for every threshold, `get_events_with_low_capacity_remaining` returns
exactly the events with non-null capacity whose
`percentage_tickets_remaining` is at most the threshold (inclusive); events
with null capacity are always excluded. -/
theorem low_capacity_membership_exact (s : Store) (threshold : ℚ)
    (l : List LowCapacityEvent)
    (h : get_events_with_low_capacity_remaining s threshold = some l) (e : Event) :
    ((∃ r ∈ l, r.event = e) ↔
      (e ∈ s.events ∧ ∃ c, e.capacity = some c ∧
        percentageRemaining c (totalTicketsSold s e.id) ≤ threshold)) ∧
    (e.capacity = none → ¬ ∃ r ∈ l, r.event = e) := by
  unfold get_events_with_low_capacity_remaining at h
  by_cases hany : (s.events.filter (fun e => e.capacity.isSome)).any
      (fun e => e.capacity == some 0) = true
  · rw [if_pos hany] at h
    exact absurd h (by simp)
  · rw [if_neg hany] at h
    have hl := Option.some.inj h
    have hiff : (∃ r ∈ l, r.event = e) ↔
        (e ∈ s.events ∧ ∃ c, e.capacity = some c ∧
          percentageRemaining c (totalTicketsSold s e.id) ≤ threshold) := by
      constructor
      · rintro ⟨r, hr, hre⟩
        rw [← hl] at hr
        obtain ⟨e', hef, hfe⟩ := List.mem_filterMap.mp hr
        obtain ⟨heev, hesome⟩ := List.mem_filter.mp hef
        cases hcap : e'.capacity with
        | none => rw [hcap] at hesome; simp at hesome
        | some c' =>
          rw [hcap] at hfe
          have hfe2 : (if percentageRemaining c' (totalTicketsSold s e'.id) ≤ threshold then
              some { event := e', tickets_sold := totalTicketsSold s e'.id,
                     percentage_tickets_remaining :=
                       percentageRemaining c' (totalTicketsSold s e'.id) }
            else none) = some r := hfe
          by_cases hif : percentageRemaining c' (totalTicketsSold s e'.id) ≤ threshold
          · rw [if_pos hif] at hfe2
            have hre' := Option.some.inj hfe2
            have hee : e' = e := by rw [← hre, ← hre']
            subst hee
            exact ⟨heev, c', hcap, hif⟩
          · rw [if_neg hif] at hfe2
            simp at hfe2
      · rintro ⟨heev, c, hcap, hle⟩
        refine ⟨{ event := e, tickets_sold := totalTicketsSold s e.id,
                  percentage_tickets_remaining :=
                    percentageRemaining c (totalTicketsSold s e.id) }, ?_, rfl⟩
        rw [← hl]
        refine List.mem_filterMap.mpr ⟨e, List.mem_filter.mpr ⟨heev, by simp [hcap]⟩, ?_⟩
        rw [hcap]
        exact if_pos hle
    refine ⟨hiff, ?_⟩
    intro hnone hex
    obtain ⟨_, c, hcap, _⟩ := hiff.mp hex
    rw [hnone] at hcap
    exact Option.noConfusion hcap

/-- Instantiation of `low_capacity_membership_exact` at `sampleStore` with
threshold 60 and `sampleEvent`. -/
theorem low_capacity_membership_exact_witness :
    ((∃ r ∈ [sampleLow], r.event = sampleEvent) ↔
      (sampleEvent ∈ sampleStore.events ∧ ∃ c, sampleEvent.capacity = some c ∧
        percentageRemaining c (totalTicketsSold sampleStore sampleEvent.id) ≤ 60)) ∧
    (sampleEvent.capacity = none → ¬ ∃ r ∈ [sampleLow], r.event = sampleEvent) :=
  low_capacity_membership_exact sampleStore 60 [sampleLow]
    (by simp [get_events_with_low_capacity_remaining, sampleStore, sampleEvent, sampleLow,
      percentageRemaining, totalTicketsSold, eventTicketTypeMult, paidOrderMult,
      List.filter, List.filterMap, List.any]
        norm_num)
    sampleEvent

/-- C10: the division defining `percentage_tickets_remaining` is guarded only
by capacity being non-null, while the schema permits `capacity = 0`: the
query is total whenever every event's capacity is null or strictly positive,
and on a store holding an event with `capacity = 0` the division by zero is
reached (modelled as the failure value `none`). -/
theorem low_capacity_division_guard (s : Store) (threshold : ℚ)
    (hpos : ∀ e ∈ s.events, e.capacity = none ∨ ∃ c, e.capacity = some c ∧ 0 < c) :
    (get_events_with_low_capacity_remaining s threshold).isSome = true ∧
    get_events_with_low_capacity_remaining zeroCapacityStore 10 = none := by
  constructor
  · unfold get_events_with_low_capacity_remaining
    have hany : (s.events.filter (fun e => e.capacity.isSome)).any
        (fun e => e.capacity == some 0) = false := by
      rw [List.any_eq_false]
      intro e hef
      have hm := List.mem_filter.mp hef
      rcases hpos e hm.1 with hnone | ⟨c, hcap, hcpos⟩
      · simp [hnone]
      · simp [hcap]
        omega
    rw [hany]
    simp
  · rfl

/-- Instantiation of `low_capacity_division_guard` at `sampleStore`, whose
only event has capacity 100. -/
theorem low_capacity_division_guard_witness :
    (get_events_with_low_capacity_remaining sampleStore 10).isSome = true ∧
    get_events_with_low_capacity_remaining zeroCapacityStore 10 = none :=
  low_capacity_division_guard sampleStore 10 (by decide)

/-- C6 counterexample: in `groupedNameStore`, customer 1's paid purchases give
events 1 and 2 (both named `X`) quantity 3 each and event 3 (named `Y`)
quantity 5.  The query groups by event NAME, so it returns `X` (grouped total
6), yet no event named `X` attains the per-event maximum (event 3 has 5). -/
theorem most_purchased_event_name_not_per_event_max :
    (get_customer_purchase_statistics groupedNameStore 1).map
      (·.most_purchased_event_name) = some (some "X") ∧
    ¬ ∃ e ∈ groupedNameStore.events, e.name = "X" ∧
      ∀ e2 ∈ groupedNameStore.events,
        specPerEventPaidQuantity groupedNameStore 1 e2.id ≤
          specPerEventPaidQuantity groupedNameStore 1 e.id := by
  constructor
  · decide
  · decide

/-- C6 amended: `most_purchased_event_name` is a name with maximal total
purchased quantity when the customer's paid purchases are grouped by event
NAME (distinct events sharing a name are aggregated together); it is the name
of some event, and it is `none` exactly when the customer has no purchases in
paid orders. -/
theorem most_purchased_event_name_grouped_by_name (s : Store) (cid : Nat)
    (st : CustomerStats) (hst : get_customer_purchase_statistics s cid = some st)
    (hFK1 : ∀ p ∈ s.purchases, ∃ t ∈ s.ticket_types, t.id = p.ticket_type_id)
    (hFK2 : ∀ t ∈ s.ticket_types, ∃ e ∈ s.events, e.id = t.event_id) :
    (∀ n, st.most_purchased_event_name = some n →
      (∃ e ∈ s.events, e.name = n) ∧ ∀ m, nameTotal s cid m ≤ nameTotal s cid n) ∧
    (st.most_purchased_event_name = none ↔
      ¬ ∃ p ∈ s.purchases, ∃ o ∈ s.orders,
        o.id = p.order_id ∧ o.is_paid = true ∧ o.customer_id = some cid) := by
  have hmost : st.most_purchased_event_name = mostPurchasedEventName s cid := by
    unfold get_customer_purchase_statistics at hst
    cases hfind : s.users.find? (fun u => u.id == cid) with
    | none => rw [hfind] at hst; exact absurd hst (by simp)
    | some u =>
      rw [hfind] at hst
      have h := Option.some.inj hst
      rw [← h]
  constructor
  · intro n hn
    rw [hmost] at hn
    unfold mostPurchasedEventName at hn
    have hmem := argmaxBy_mem _ _ _ hn
    have hmax := argmaxBy_is_max _ _ _ hn
    have hmem' : n ∈ (customerPurchaseRows s cid).map (·.1) := List.mem_dedup.mp hmem
    obtain ⟨r, hr, hrn⟩ := List.mem_map.mp hmem'
    obtain ⟨p, hp, ⟨o, ho, hoid, hpaid, hcust⟩, t, ht, htid, e, he, heid, hre⟩ :=
      (mem_customerPurchaseRows s cid r).mp hr
    refine ⟨⟨e, he, ?_⟩, ?_⟩
    · rw [hre] at hrn
      exact hrn
    · intro m
      by_cases hm : m ∈ ((customerPurchaseRows s cid).map (·.1)).dedup
      · exact hmax m hm
      · have h0 : nameTotal s cid m = 0 :=
          nameTotal_eq_zero_of_not_mem s cid m (fun hmm => hm (List.mem_dedup.mpr hmm))
        rw [h0]
        exact Nat.zero_le _
  · rw [hmost]
    unfold mostPurchasedEventName
    constructor
    · intro hn hex
      have hdnil := (argmaxBy_eq_none_iff _ _).mp hn
      have hnil : (customerPurchaseRows s cid).map (·.1) = [] :=
        (List.dedup_eq_nil _).mp hdnil
      have hrnil : customerPurchaseRows s cid = [] := List.map_eq_nil_iff.mp hnil
      obtain ⟨p, hp, o, ho, hoid, hpaid, hcust⟩ := hex
      obtain ⟨t, ht, htid⟩ := hFK1 p hp
      obtain ⟨e, he, heid⟩ := hFK2 t ht
      have hrow : (e.name, p.quantity) ∈ customerPurchaseRows s cid :=
        (mem_customerPurchaseRows s cid _).mpr
          ⟨p, hp, ⟨o, ho, hoid, hpaid, hcust⟩, t, ht, htid, e, he, heid, rfl⟩
      rw [hrnil] at hrow
      exact List.not_mem_nil _ hrow
    · intro hnp
      have hrnil : customerPurchaseRows s cid = [] := by
        rw [List.eq_nil_iff_forall_not_mem]
        intro r hr
        obtain ⟨p, hp, ⟨o, ho, hoid, hpaid, hcust⟩, _⟩ :=
          (mem_customerPurchaseRows s cid r).mp hr
        exact hnp ⟨p, hp, o, ho, hoid, hpaid, hcust⟩
      rw [hrnil]
      rfl

/-- The statistics record `get_customer_purchase_statistics` yields for
customer 1 of `sampleStore`. -/
def sampleCustomerStats : CustomerStats :=
  { user_id := 1, username := "alice", total_orders_placed := 2,
    total_amount_spent := 75, most_purchased_event_name := some "Concert" }

/-- Instantiation of `most_purchased_event_name_grouped_by_name` at
`sampleStore`, customer 1. -/
theorem most_purchased_event_name_grouped_by_name_witness :
    (∀ n, sampleCustomerStats.most_purchased_event_name = some n →
      (∃ e ∈ sampleStore.events, e.name = n) ∧
      ∀ m, nameTotal sampleStore 1 m ≤ nameTotal sampleStore 1 n) ∧
    (sampleCustomerStats.most_purchased_event_name = none ↔
      ¬ ∃ p ∈ sampleStore.purchases, ∃ o ∈ sampleStore.orders,
        o.id = p.order_id ∧ o.is_paid = true ∧ o.customer_id = some 1) :=
  most_purchased_event_name_grouped_by_name sampleStore 1 sampleCustomerStats
    (by simp [get_customer_purchase_statistics, sampleStore, sampleCustomerStats,
      sampleEvent, totalOrdersPlaced, totalAmountSpent, mostPurchasedEventName,
      customerPurchaseRows, nameTotal, argmaxBy, List.filter, List.flatMap,
      List.dedup, List.find?])
    (by decide) (by decide)

end EventAnalytics
